import Mathlib

/-
Verification of the translation/TTS backend (src/main.py) against its
natural-language specification.

The two request handlers are embedded as pure Lean functions over an
explicit environment describing the behaviour of the external
collaborators (the two translation providers, the gTTS engine, the
document store, and the random filename token).  Python truthiness of
the optional translated payload is modelled exactly: `None` and the
empty string are falsy, every non-empty string (whitespace included)
is truthy.
-/

namespace DubbingApi

/-- Outcome of a single call to an external translation provider:
either it returns a payload (possibly null, modelled as `none`), or it
raises an exception (timeouts included) carrying a message. -/
inductive ProviderOutcome where
  | returns (payload : Option String)
  | raises (msg : String)
deriving Repr, DecidableEq

/-- Environment for a `/translate` request: behaviour of the two
providers and of the document store (`db is not None`, and whether
`create_document` raises). -/
structure TranslateEnv where
  libre : ProviderOutcome
  mymemory : ProviderOutcome
  dbConfigured : Bool
  storeWriteRaises : Bool
deriving Repr, DecidableEq

/-- Body of the `TranslateRequest` pydantic model. -/
structure TranslateRequest where
  text : String
  target_language : String
  source_language : Option String
deriving Repr, DecidableEq

/-- Body of the `TTSRequest` pydantic model. -/
structure TTSRequest where
  text : String
  language : String
  voice : Option String
deriving Repr, DecidableEq

/-- Environment for a `/tts` request: whether loading the gTTS module
raises (`some` message), whether synthesis raises, the `uuid4().hex`
token drawn for the output filename, and the document-store state. -/
structure TTSEnv where
  engineUnavailable : Option String
  synthRaises : Option String
  token : String
  dbConfigured : Bool
  storeWriteRaises : Bool
deriving Repr, DecidableEq

/-- Result of a handler: a 200 body, or an `HTTPException` with a
status code and a detail string. -/
inductive HandlerResult (α : Type) where
  | ok (body : α)
  | httpError (statusCode : Nat) (detail : String)
deriving Repr, DecidableEq

/-- HTTP status of a handler result (FastAPI returns 200 for a plain
dict return). -/
def statusOf {α : Type} : HandlerResult α → Nat
  | .ok _ => 200
  | .httpError s _ => s

/-- Successful `/translate` body: translated and notes fields. -/
structure TranslateResponse where
  translated : String
  notes : List String
deriving Repr, DecidableEq

/-- Successful `/tts` body: the audio_url field. -/
structure TTSResponse where
  audio_url : String
deriving Repr, DecidableEq

/-- JSON values appearing in the response dict literals of the handlers. -/
inductive JVal where
  | jstr (s : String)
  | jarr (xs : List String)
deriving Repr, DecidableEq

/-- Rendering of the dict literal at src/main.py:139,
`\x7b"translated": translated, "notes": errors[:2]\x7d`, as an
association list. -/
def TranslateResponse.toBody (r : TranslateResponse) : List (String × JVal) :=
  [("translated", JVal.jstr r.translated), ("notes", JVal.jarr r.notes)]

/-- Rendering of the dict literal at src/main.py:183,
`\x7b"audio_url": audio_url\x7d`, as an association list. -/
def TTSResponse.toBody (r : TTSResponse) : List (String × JVal) :=
  [("audio_url", JVal.jstr r.audio_url)]

/-- Keys of a JSON body. -/
def bodyKeys (b : List (String × JVal)) : List String := b.map Prod.fst

/-- The `SUPPORTED_LANGS` dict of src/main.py:41-53. -/
def SUPPORTED_LANGS : List (String × String) :=
  [("hi", "Hindi"), ("bn", "Bengali"), ("ta", "Tamil"), ("te", "Telugu"),
   ("ml", "Malayalam"), ("mr", "Marathi"), ("gu", "Gujarati"),
   ("kn", "Kannada"), ("pa", "Punjabi"), ("or", "Odia"), ("as", "Assamese")]

/-- Key membership in `SUPPORTED_LANGS` (Python `in` on a dict). -/
def supportedCodes : List String := SUPPORTED_LANGS.map Prod.fst

/-- Python truthiness of the `translated` variable (`Optional[str]`):
`None` and `""` are falsy, every non-empty string is truthy. -/
def pyTruthy : Option String → Bool
  | none => false
  | some s => !s.isEmpty

/-- A provider call that produced no usable translation: it raised, or
it returned a falsy payload. -/
def providerFailed : ProviderOutcome → Bool
  | .raises _ => true
  | .returns p => !pyTruthy p

/-- Which external collaborators a `/translate` request invoked. -/
structure TranslateEffects where
  libreCalled : Bool
  mymemoryCalled : Bool
  storeCalled : Bool
deriving Repr, DecidableEq

/-- Which external collaborators a `/tts` request invoked. -/
structure TTSEffects where
  engineLoadAttempted : Bool
  synthCalled : Bool
  storeCalled : Bool
deriving Repr, DecidableEq

/-- Lines 110-113 of src/main.py: call LibreTranslate inside
`try/except`, producing the `translated` variable and the `errors`
list so far. -/
def libreStep (o : ProviderOutcome) : Option String × List String :=
  match o with
  | .returns p => (p, [])
  | .raises e => (none, ["LibreTranslate error: " ++ e])

/-- Lines 115-119 of src/main.py: when `translated` is falsy, call
MyMemory inside `try/except`; on an exception `translated` keeps its
previous value and a note is appended. -/
def mymemoryStep (o : ProviderOutcome) (st : Option String × List String) :
    Option String × List String :=
  if pyTruthy st.1 then st
  else
    match o with
    | .returns p => (p, st.2)
    | .raises e => (st.1, st.2 ++ ["MyMemory error: " ++ e])

/-- Lines 121-123 of src/main.py: last-resort fallback to the original
text when `translated` is still falsy. -/
def finalTranslated (t : Option String) (orig : String) : String :=
  match t with
  | some s => if s.isEmpty then orig else s
  | none => orig

/-- Lines 125-137 / 170-181 of src/main.py: attempt the document-store
write when `db is not None`; `create_document` may raise. -/
def storeAttempt (dbConfigured storeWriteRaises : Bool) : Except String Unit :=
  if dbConfigured then
    (if storeWriteRaises then Except.error "document store write failed"
     else Except.ok ())
  else Except.ok ()

/-- The `/translate` handler, src/main.py:96-139, paired with the
record of which external collaborators it invoked. -/
def translate_text (env : TranslateEnv) (req : TranslateRequest) :
    HandlerResult TranslateResponse × TranslateEffects :=
  if supportedCodes.contains req.target_language then
    let st₁ := libreStep env.libre
    let st₂ := mymemoryStep env.mymemory st₁
    let translated := finalTranslated st₂.1 req.text
    let fx : TranslateEffects :=
      ⟨true, !pyTruthy st₁.1, env.dbConfigured⟩
    -- `except Exception: pass` around the store write (lines 136-137):
    match storeAttempt env.dbConfigured env.storeWriteRaises with
    | .ok _ => (.ok ⟨translated, st₂.2.take 2⟩, fx)
    | .error _ => (.ok ⟨translated, st₂.2.take 2⟩, fx)
  else
    (.httpError 400 "Unsupported target language", ⟨false, false, false⟩)

/-- The `/tts` handler, src/main.py:142-183, paired with the record of
which external collaborators it invoked. -/
def text_to_speech (env : TTSEnv) (req : TTSRequest) :
    HandlerResult TTSResponse × TTSEffects :=
  if supportedCodes.contains req.language then
    match env.engineUnavailable with
    | some e =>
        (.httpError 500 ("TTS engine unavailable: " ++ e), ⟨true, false, false⟩)
    | none =>
      let filename := "tts_" ++ env.token ++ ".mp3"
      match env.synthRaises with
      | some e =>
          (.httpError 502
             ("TTS failed for \x27" ++ req.language ++
              "\x27. Try a different language (e.g., hi). Error: " ++ e),
           ⟨true, true, false⟩)
      | none =>
        let url := "/outputs/" ++ filename
        -- `except Exception: pass` around the store write (lines 180-181):
        match storeAttempt env.dbConfigured env.storeWriteRaises with
        | .ok _ => (.ok ⟨url⟩, ⟨true, true, env.dbConfigured⟩)
        | .error _ => (.ok ⟨url⟩, ⟨true, true, env.dbConfigured⟩)
  else
    (.httpError 400 "Unsupported language for TTS", ⟨false, false, false⟩)

/-- Lowercase hexadecimal digit, the alphabet of `uuid4().hex`. -/
def isLowerHexChar (c : Char) : Bool :=
  c.isDigit || (97 ≤ c.toNat && c.toNat ≤ 102)

/-- A falsy `translated` value makes the last-resort fallback fire. -/
theorem finalTranslated_of_falsy (t : Option String) (orig : String)
    (h : pyTruthy t = false) : finalTranslated t orig = orig := by
  cases t with
  | none => rfl
  | some s =>
    simp only [pyTruthy, Bool.not_eq_false'] at h
    simp [finalTranslated, h]

/-- A truthy `translated` value survives the last-resort fallback. -/
theorem finalTranslated_of_truthy (s : String) (orig : String)
    (h : s.isEmpty = false) : finalTranslated (some s) orig = s := by
  simp [finalTranslated, h]

/-- A failed LibreTranslate call leaves `translated` falsy. -/
theorem libreStep_failed (o : ProviderOutcome) (h : providerFailed o = true) :
    pyTruthy (libreStep o).1 = false := by
  cases o with
  | returns p => simpa [providerFailed, libreStep] using h
  | raises e => simp [libreStep, pyTruthy]

/-- A failed MyMemory call, after a falsy first step, leaves
`translated` falsy. -/
theorem mymemoryStep_failed (o : ProviderOutcome) (st : Option String × List String)
    (h1 : pyTruthy st.1 = false) (h2 : providerFailed o = true) :
    pyTruthy (mymemoryStep o st).1 = false := by
  cases o with
  | returns p =>
    simp only [providerFailed, Bool.not_eq_true'] at h2
    simp [mymemoryStep, h1, h2]
  | raises e => simp [mymemoryStep, h1]

/-- The `errors[:2]` slice never exceeds two elements. -/
theorem take_two_le_two (l : List String) : (l.take 2).length ≤ 2 := by
  simp [List.length_take]

/-- The `/translate` response does not depend on the document-store
fields of the environment: the `try/except pass` swallows both
branches into the same body. -/
theorem translate_response_ignores_store (env : TranslateEnv) (req : TranslateRequest) :
    (translate_text env req).1 =
      (translate_text ⟨env.libre, env.mymemory, false, false⟩ req).1 := by
  by_cases hsup : supportedCodes.contains req.target_language
  · simp only [translate_text, hsup, if_true]
    cases storeAttempt env.dbConfigured env.storeWriteRaises <;> rfl
  · simp only [translate_text]
    rw [if_neg hsup, if_neg hsup]

/-- The `/tts` response does not depend on the document-store fields
of the environment. -/
theorem tts_response_ignores_store (env : TTSEnv) (req : TTSRequest) :
    (text_to_speech env req).1 =
      (text_to_speech ⟨env.engineUnavailable, env.synthRaises, env.token, false, false⟩ req).1 := by
  by_cases hsup : supportedCodes.contains req.language
  · simp only [text_to_speech, hsup, if_true]
    cases env.engineUnavailable with
    | some e => rfl
    | none =>
      cases env.synthRaises with
      | some e => rfl
      | none =>
        cases storeAttempt env.dbConfigured env.storeWriteRaises <;> rfl
  · simp only [text_to_speech]
    rw [if_neg hsup, if_neg hsup]

/-- Characterization of `/translate` on a supported target language:
the store branches collapse and the body is assembled from the two
provider steps. -/
theorem translate_text_supported (env : TranslateEnv) (req : TranslateRequest)
    (hsup : supportedCodes.contains req.target_language = true) :
    translate_text env req =
      (HandlerResult.ok
        ⟨finalTranslated (mymemoryStep env.mymemory (libreStep env.libre)).1 req.text,
         (mymemoryStep env.mymemory (libreStep env.libre)).2.take 2⟩,
       ⟨true, !pyTruthy (libreStep env.libre).1, env.dbConfigured⟩) := by
  simp only [translate_text, hsup, if_true]
  cases storeAttempt env.dbConfigured env.storeWriteRaises <;> rfl

/-- Characterization of `/tts` on a supported language with the engine
loadable and synthesis succeeding. -/
theorem text_to_speech_success (env : TTSEnv) (req : TTSRequest)
    (hsup : supportedCodes.contains req.language = true)
    (heng : env.engineUnavailable = none)
    (hsyn : env.synthRaises = none) :
    text_to_speech env req =
      (HandlerResult.ok ⟨"/outputs/" ++ ("tts_" ++ env.token ++ ".mp3")⟩,
       ⟨true, true, env.dbConfigured⟩) := by
  simp only [text_to_speech, hsup, if_true, heng, hsyn]
  cases storeAttempt env.dbConfigured env.storeWriteRaises <;> rfl

/-- A successful `/tts` response carries the URL built from the
uuid token of the environment. -/
theorem tts_ok_url (env : TTSEnv) (req : TTSRequest) (b : TTSResponse)
    (h : (text_to_speech env req).1 = HandlerResult.ok b) :
    b.audio_url = "/outputs/" ++ ("tts_" ++ env.token ++ ".mp3") := by
  by_cases hsup : supportedCodes.contains req.language
  · cases heng : env.engineUnavailable with
    | some e =>
      simp only [text_to_speech, hsup, if_true, heng] at h
      exact absurd h (by simp)
    | none =>
      cases hsyn : env.synthRaises with
      | some e =>
        simp only [text_to_speech, hsup, if_true, heng, hsyn] at h
        exact absurd h (by simp)
      | none =>
        rw [text_to_speech_success env req hsup heng hsyn] at h
        injection h with h
        rw [← h]
  · simp only [text_to_speech] at h
    rw [if_neg hsup] at h
    exact absurd h (by simp)

/-- Distinct uuid tokens give distinct output URLs. -/
theorem url_token_inj (t₁ t₂ : String)
    (h : "/outputs/" ++ ("tts_" ++ t₁ ++ ".mp3") =
         "/outputs/" ++ ("tts_" ++ t₂ ++ ".mp3")) : t₁ = t₂ := by
  have hd : "/outputs/".data ++ ("tts_".data ++ (t₁.data ++ ".mp3".data)) =
      "/outputs/".data ++ ("tts_".data ++ (t₂.data ++ ".mp3".data)) := by
    have h' := congrArg String.data h
    simpa [String.data_append, List.append_assoc] using h'
  exact String.ext
    (List.append_cancel_right (List.append_cancel_left (List.append_cancel_left hd)))

/-- C1: if both translation providers fail to produce a usable
translation, the `/translate` handler returns HTTP 200 with the
original input text unchanged in `translated` and at most two notes;
it never raises or returns a 5xx. -/
theorem translate_all_providers_fail_echoes_input
    (env : TranslateEnv) (req : TranslateRequest)
    (hsup : supportedCodes.contains req.target_language = true)
    (h₁ : providerFailed env.libre = true)
    (h₂ : providerFailed env.mymemory = true) :
    ∃ notes : List String,
      (translate_text env req).1 = HandlerResult.ok ⟨req.text, notes⟩ ∧
      notes.length ≤ 2 ∧
      statusOf (translate_text env req).1 = 200 := by
  have hf1 := libreStep_failed env.libre h₁
  have hf2 := mymemoryStep_failed env.mymemory (libreStep env.libre) hf1 h₂
  have hfin := finalTranslated_of_falsy _ req.text hf2
  refine ⟨(mymemoryStep env.mymemory (libreStep env.libre)).2.take 2, ?_⟩
  have hbody : (translate_text env req).1 =
      HandlerResult.ok ⟨req.text, (mymemoryStep env.mymemory (libreStep env.libre)).2.take 2⟩ := by
    simp only [translate_text, hsup, if_true]
    cases storeAttempt env.dbConfigured env.storeWriteRaises <;>
      simp [hfin]
  exact ⟨hbody, take_two_le_two _, by rw [hbody]; rfl⟩

/-- C1 witness: concrete run in which LibreTranslate times out and
MyMemory returns a null payload; the response echoes "Hello". -/
theorem translate_all_providers_fail_echoes_input_witness :
    ∃ notes : List String,
      (translate_text ⟨.raises "timeout", .returns none, true, true⟩
          ⟨"Hello", "hi", none⟩).1 = HandlerResult.ok ⟨"Hello", notes⟩ ∧
      notes.length ≤ 2 ∧
      statusOf (translate_text ⟨.raises "timeout", .returns none, true, true⟩
          ⟨"Hello", "hi", none⟩).1 = 200 :=
  translate_all_providers_fail_echoes_input
    ⟨.raises "timeout", .returns none, true, true⟩
    ⟨"Hello", "hi", none⟩ (by decide) (by decide) (by decide)

/-- C2: a request whose target language code is outside the supported
set makes both handlers return a 400 client error, with no provider
call, no synthesis-engine call, and no document-store write. -/
theorem unsupported_language_rejected_without_external_calls
    (envT : TranslateEnv) (reqT : TranslateRequest)
    (envS : TTSEnv) (reqS : TTSRequest)
    (hT : supportedCodes.contains reqT.target_language = false)
    (hS : supportedCodes.contains reqS.language = false) :
    translate_text envT reqT =
      (HandlerResult.httpError 400 "Unsupported target language", ⟨false, false, false⟩) ∧
    text_to_speech envS reqS =
      (HandlerResult.httpError 400 "Unsupported language for TTS", ⟨false, false, false⟩) := by
  constructor
  · simp only [translate_text]
    rw [if_neg (by simpa using hT)]
  · simp only [text_to_speech]
    rw [if_neg (by simpa using hS)]

/-- C2 witness: concrete unsupported codes "xx" and "zz" are rejected
with 400 and no external calls, even with the store configured. -/
theorem unsupported_language_rejected_without_external_calls_witness :
    translate_text ⟨.returns (some "Bonjour"), .returns (some "Hallo"), true, false⟩
        ⟨"Hello", "xx", none⟩ =
      (HandlerResult.httpError 400 "Unsupported target language", ⟨false, false, false⟩) ∧
    text_to_speech ⟨none, none, "abc", true, false⟩ ⟨"Hello", "zz", none⟩ =
      (HandlerResult.httpError 400 "Unsupported language for TTS", ⟨false, false, false⟩) :=
  unsupported_language_rejected_without_external_calls
    ⟨.returns (some "Bonjour"), .returns (some "Hallo"), true, false⟩
    ⟨"Hello", "xx", none⟩
    ⟨none, none, "abc", true, false⟩ ⟨"Hello", "zz", none⟩
    (by decide) (by decide)

/-- C3: when LibreTranslate returns a non-empty string without
raising, MyMemory is never invoked and the primary result is the
`translated` field of the response. -/
theorem primary_success_short_circuits
    (env : TranslateEnv) (req : TranslateRequest) (s : String)
    (hsup : supportedCodes.contains req.target_language = true)
    (hlib : env.libre = ProviderOutcome.returns (some s))
    (hs : s.isEmpty = false) :
    (translate_text env req).2.mymemoryCalled = false ∧
    (translate_text env req).1 = HandlerResult.ok ⟨s, []⟩ := by
  have h1 : libreStep env.libre = (some s, []) := by rw [hlib]; rfl
  have htr : pyTruthy (some s) = true := by simp [pyTruthy, hs]
  have hmm : mymemoryStep env.mymemory (libreStep env.libre) = (some s, []) := by
    rw [h1]
    simp [mymemoryStep, htr]
  rw [translate_text_supported env req hsup]
  refine ⟨by simp [h1, htr], ?_⟩
  simp [hmm, finalTranslated_of_truthy s req.text hs]

/-- C3 witness: LibreTranslate returning a Hindi payload
short-circuits MyMemory on a concrete request. -/
theorem primary_success_short_circuits_witness :
    (translate_text ⟨.returns (some "namaste"), .raises "down", false, false⟩
        ⟨"Hello", "hi", none⟩).2.mymemoryCalled = false ∧
    (translate_text ⟨.returns (some "namaste"), .raises "down", false, false⟩
        ⟨"Hello", "hi", none⟩).1 = HandlerResult.ok ⟨"namaste", []⟩ :=
  primary_success_short_circuits
    ⟨.returns (some "namaste"), .raises "down", false, false⟩
    ⟨"Hello", "hi", none⟩ "namaste" (by decide) rfl (by decide)

/-- C6: the HTTP status and body of both handlers are identical
between a run in which the document-store write succeeds and a run in
which the store is unconfigured or the write raises. -/
theorem persistence_failure_never_surfaced
    (l m : ProviderOutcome) (reqT : TranslateRequest)
    (eu sr : Option String) (tok : String) (reqS : TTSRequest)
    (db₁ sf₁ db₂ sf₂ : Bool) :
    (translate_text ⟨l, m, db₁, sf₁⟩ reqT).1 =
      (translate_text ⟨l, m, db₂, sf₂⟩ reqT).1 ∧
    (text_to_speech ⟨eu, sr, tok, db₁, sf₁⟩ reqS).1 =
      (text_to_speech ⟨eu, sr, tok, db₂, sf₂⟩ reqS).1 := by
  constructor
  · rw [translate_response_ignores_store ⟨l, m, db₁, sf₁⟩,
        translate_response_ignores_store ⟨l, m, db₂, sf₂⟩]
  · rw [tts_response_ignores_store ⟨eu, sr, tok, db₁, sf₁⟩,
        tts_response_ignores_store ⟨eu, sr, tok, db₂, sf₂⟩]

/-- C10: an unsupported language makes `/tts` return 400 regardless of
the engine-availability state; the engine load is never attempted and
the 500 engine-unavailable error can never fire. -/
theorem tts_validation_precedes_engine_check
    (env : TTSEnv) (req : TTSRequest)
    (h : supportedCodes.contains req.language = false) :
    (text_to_speech env req).1 =
      HandlerResult.httpError 400 "Unsupported language for TTS" ∧
    (text_to_speech env req).2.engineLoadAttempted = false ∧
    statusOf (text_to_speech env req).1 ≠ 500 := by
  have hfull : text_to_speech env req =
      (HandlerResult.httpError 400 "Unsupported language for TTS",
       ⟨false, false, false⟩) := by
    simp only [text_to_speech]
    rw [if_neg (by simpa using h)]
  rw [hfull]
  exact ⟨rfl, rfl, by decide⟩

/-- C10 witness: even with the gTTS module failing to load, an
unsupported language still yields 400, not 500. -/
theorem tts_validation_precedes_engine_check_witness :
    (text_to_speech ⟨some "No module named gtts", none, "abc", false, false⟩
        ⟨"Hello", "xx", none⟩).1 =
      HandlerResult.httpError 400 "Unsupported language for TTS" ∧
    (text_to_speech ⟨some "No module named gtts", none, "abc", false, false⟩
        ⟨"Hello", "xx", none⟩).2.engineLoadAttempted = false ∧
    statusOf (text_to_speech ⟨some "No module named gtts", none, "abc", false, false⟩
        ⟨"Hello", "xx", none⟩).1 ≠ 500 :=
  tts_validation_precedes_engine_check
    ⟨some "No module named gtts", none, "abc", false, false⟩
    ⟨"Hello", "xx", none⟩ (by decide)

/-- C4 counterexample: LibreTranslate returns the whitespace-only
payload " "; Python truthiness accepts it (`not " "` is False), so the
chain stops, MyMemory is never consulted, and the whitespace string is
returned as the result — it is not treated as a failure. -/
theorem whitespace_payload_accepted_counterexample :
    (translate_text ⟨.returns (some " "), .returns (some "actual translation"), false, false⟩
        ⟨"Hello", "hi", none⟩).1 = HandlerResult.ok ⟨" ", []⟩ ∧
    (translate_text ⟨.returns (some " "), .returns (some "actual translation"), false, false⟩
        ⟨"Hello", "hi", none⟩).2.mymemoryCalled = false := by
  decide

/-- C4 amended: a null or empty-string payload is treated as failure
and the chain proceeds to the next provider, but a whitespace-only
non-empty payload is accepted as the successful result. -/
theorem empty_payload_is_failure
    (env : TranslateEnv) (req : TranslateRequest)
    (hsup : supportedCodes.contains req.target_language = true) :
    (∀ p : Option String, env.libre = ProviderOutcome.returns p →
        pyTruthy p = false →
      (translate_text env req).2.mymemoryCalled = true) ∧
    (∀ s : String, env.libre = ProviderOutcome.returns (some s) →
        s.isEmpty = false →
      (translate_text env req).1 = HandlerResult.ok ⟨s, []⟩) := by
  rw [translate_text_supported env req hsup]
  constructor
  · intro p hlib hp
    simp [libreStep, hlib, hp]
  · intro s hlib hs
    have h1 : libreStep env.libre = (some s, []) := by rw [hlib]; rfl
    have htr : pyTruthy (some s) = true := by simp [pyTruthy, hs]
    have hmm : mymemoryStep env.mymemory (libreStep env.libre) = (some s, []) := by
      rw [h1]
      simp [mymemoryStep, htr]
    simp [hmm, finalTranslated_of_truthy s req.text hs]

/-- C4 amended witness: a null payload from LibreTranslate makes the
handler consult MyMemory on a concrete request. -/
theorem empty_payload_is_failure_witness :
    (translate_text ⟨.returns none, .returns (some "Y"), false, false⟩
        ⟨"Hello", "hi", none⟩).2.mymemoryCalled = true :=
  (empty_payload_is_failure
      ⟨.returns none, .returns (some "Y"), false, false⟩
      ⟨"Hello", "hi", none⟩ (by decide)).1 none rfl (by decide)

/-- C5 counterexample: LibreTranslate fails by returning a null
payload without raising; MyMemory then succeeds, yet the `notes` list
of the response is empty — no diagnostic note was recorded for the
failed primary provider. -/
theorem silent_empty_result_unnoted_counterexample :
    providerFailed (ProviderOutcome.returns none) = true ∧
    (translate_text ⟨.returns none, .returns (some "secondary result"), false, false⟩
        ⟨"Hello", "hi", none⟩).1 =
      HandlerResult.ok ⟨"secondary result", []⟩ := by
  decide

/-- C5 amended: a provider that raises (timeouts included) gets a
diagnostic note that appears in the `notes` of the response; a provider
that fails by returning a null or empty payload without raising
produces no note, so when neither provider raises the notes list is
empty. -/
theorem raising_provider_recorded_in_notes
    (env : TranslateEnv) (req : TranslateRequest)
    (hsup : supportedCodes.contains req.target_language = true) :
    (∀ e : String, env.libre = ProviderOutcome.raises e →
      ∃ r : TranslateResponse, (translate_text env req).1 = HandlerResult.ok r ∧
        ("LibreTranslate error: " ++ e) ∈ r.notes) ∧
    (∀ e : String, env.mymemory = ProviderOutcome.raises e →
        providerFailed env.libre = true →
      ∃ r : TranslateResponse, (translate_text env req).1 = HandlerResult.ok r ∧
        ("MyMemory error: " ++ e) ∈ r.notes) ∧
    (∀ p q : Option String, env.libre = ProviderOutcome.returns p →
        env.mymemory = ProviderOutcome.returns q →
      ∃ r : TranslateResponse, (translate_text env req).1 = HandlerResult.ok r ∧
        r.notes = []) := by
  rw [translate_text_supported env req hsup]
  refine ⟨?_, ?_, ?_⟩
  · intro e hlib
    refine ⟨_, rfl, ?_⟩
    rw [hlib]
    cases env.mymemory with
    | returns p => simp [libreStep, mymemoryStep, pyTruthy]
    | raises e' => simp [libreStep, mymemoryStep, pyTruthy]
  · intro e hmem hfail
    refine ⟨_, rfl, ?_⟩
    rw [hmem]
    cases hlib : env.libre with
    | returns p =>
      rw [hlib] at hfail
      simp only [providerFailed, Bool.not_eq_true'] at hfail
      simp [libreStep, mymemoryStep, hfail]
    | raises e₀ => simp [libreStep, mymemoryStep, pyTruthy]
  · intro p q hlib hmem
    refine ⟨_, rfl, ?_⟩
    rw [hlib, hmem]
    by_cases hp : pyTruthy p
    · simp [libreStep, mymemoryStep, hp]
    · simp [libreStep, mymemoryStep, hp]

/-- C5 amended witness: a LibreTranslate timeout produces a note on a
concrete request. -/
theorem raising_provider_recorded_in_notes_witness :
    ∃ r : TranslateResponse,
      (translate_text ⟨.raises "timeout", .returns (some "Y"), false, false⟩
          ⟨"Hello", "hi", none⟩).1 = HandlerResult.ok r ∧
      ("LibreTranslate error: " ++ "timeout") ∈ r.notes :=
  (raising_provider_recorded_in_notes
      ⟨.raises "timeout", .returns (some "Y"), false, false⟩
      ⟨"Hello", "hi", none⟩ (by decide)).1 "timeout" rfl

/-- C7 counterexample: with the document store configured and the
write succeeding, the `/translate` body still has exactly the keys
translated and notes, and no job_id key. -/
theorem body_shape_ignores_persistence_counterexample :
    (translate_text ⟨.returns (some "X"), .returns (some "Y"), true, false⟩
        ⟨"Hello", "hi", none⟩).1 = HandlerResult.ok ⟨"X", []⟩ ∧
    bodyKeys (TranslateResponse.toBody ⟨"X", []⟩) = ["translated", "notes"] ∧
    ("job_id" ∈ bodyKeys (TranslateResponse.toBody ⟨"X", []⟩) → False) := by
  decide

/-- C7 amended: the `/translate` response body always has exactly the
keys translated and notes, whatever the persistence outcome; a job_id
key is never returned. -/
theorem translate_body_keys_fixed
    (env : TranslateEnv) (req : TranslateRequest)
    (hsup : supportedCodes.contains req.target_language = true) :
    ∃ r : TranslateResponse, (translate_text env req).1 = HandlerResult.ok r ∧
      bodyKeys r.toBody = ["translated", "notes"] := by
  rw [translate_text_supported env req hsup]
  exact ⟨_, rfl, rfl⟩

/-- C7 amended witness: concrete run with a configured store and a
successful write still yields the translated/notes body. -/
theorem translate_body_keys_fixed_witness :
    ∃ r : TranslateResponse,
      (translate_text ⟨.returns (some "X"), .returns (some "Y"), true, false⟩
          ⟨"Hello", "hi", none⟩).1 = HandlerResult.ok r ∧
      bodyKeys r.toBody = ["translated", "notes"] :=
  translate_body_keys_fixed
    ⟨.returns (some "X"), .returns (some "Y"), true, false⟩
    ⟨"Hello", "hi", none⟩ (by decide)

/-- C8: `/tts` answers 400 for an unsupported language, 500 when the
engine fails to load, 502 when synthesis raises — the 502 detail names
the failed language and suggests the alternative "hi" — and 200
otherwise. -/
theorem tts_error_taxonomy (env : TTSEnv) (req : TTSRequest) :
    (supportedCodes.contains req.language = false →
      (text_to_speech env req).1 =
        HandlerResult.httpError 400 "Unsupported language for TTS") ∧
    (supportedCodes.contains req.language = true →
      ∀ e : String, env.engineUnavailable = some e →
        (text_to_speech env req).1 =
          HandlerResult.httpError 500 ("TTS engine unavailable: " ++ e)) ∧
    (supportedCodes.contains req.language = true →
        env.engineUnavailable = none →
      ∀ e : String, env.synthRaises = some e →
        (text_to_speech env req).1 =
          HandlerResult.httpError 502
            ("TTS failed for \x27" ++ req.language ++
             "\x27. Try a different language (e.g., hi). Error: " ++ e)) ∧
    (supportedCodes.contains req.language = true →
        env.engineUnavailable = none → env.synthRaises = none →
      statusOf (text_to_speech env req).1 = 200) := by
  refine ⟨?_, ?_, ?_, ?_⟩
  · intro h
    simp only [text_to_speech]
    rw [if_neg (by simpa using h)]
  · intro h e he
    simp only [text_to_speech, h, if_true, he]
  · intro h he e hs
    simp only [text_to_speech, h, if_true, he, hs]
  · intro h he hs
    rw [text_to_speech_success env req h he hs]
    rfl

/-- C8 witness: synthesis raising on the Odia code "or" yields the 502
error whose detail names "or" and suggests "hi". -/
theorem tts_error_taxonomy_witness :
    (text_to_speech ⟨none, some "boom", "abc", false, false⟩
        ⟨"Hello", "or", none⟩).1 =
      HandlerResult.httpError 502
        ("TTS failed for \x27" ++ "or" ++
         "\x27. Try a different language (e.g., hi). Error: " ++ "boom") :=
  (tts_error_taxonomy ⟨none, some "boom", "abc", false, false⟩
      ⟨"Hello", "or", none⟩).2.2.1 (by decide) rfl "boom" rfl

/-- C9: every successful `/tts` response whose uuid token is 32
lowercase hex characters has an audio_url of the form
/outputs/tts_<32-hex>.mp3, and two successful responses drawn from
distinct uuid tokens have distinct audio_urls — identical inputs never
overwrite one another. -/
theorem tts_success_urls_hex_and_unique
    (e₁ e₂ : TTSEnv) (r₁ r₂ : TTSRequest) (b₁ b₂ : TTSResponse)
    (h₁ : (text_to_speech e₁ r₁).1 = HandlerResult.ok b₁)
    (h₂ : (text_to_speech e₂ r₂).1 = HandlerResult.ok b₂)
    (hlen : e₁.token.length = 32)
    (hhex : e₁.token.data.all isLowerHexChar = true)
    (htok : e₁.token ≠ e₂.token) :
    (∃ tok : String, tok.length = 32 ∧ tok.data.all isLowerHexChar = true ∧
      b₁.audio_url = "/outputs/" ++ ("tts_" ++ tok ++ ".mp3")) ∧
    b₁.audio_url ≠ b₂.audio_url := by
  have hu₁ := tts_ok_url e₁ r₁ b₁ h₁
  have hu₂ := tts_ok_url e₂ r₂ b₂ h₂
  refine ⟨⟨e₁.token, hlen, hhex, hu₁⟩, ?_⟩
  rw [hu₁, hu₂]
  intro hcontra
  exact htok (url_token_inj _ _ hcontra)

/-- C9 witness: two concrete successful calls with identical text and
language but distinct uuid tokens produce distinct audio_urls. -/
theorem tts_success_urls_hex_and_unique_witness :
    (∃ tok : String, tok.length = 32 ∧ tok.data.all isLowerHexChar = true ∧
      ("/outputs/" ++ ("tts_" ++ "00000000000000000000000000000000" ++ ".mp3")) =
        "/outputs/" ++ ("tts_" ++ tok ++ ".mp3")) ∧
    ("/outputs/" ++ ("tts_" ++ "00000000000000000000000000000000" ++ ".mp3")) ≠
      ("/outputs/" ++ ("tts_" ++ "11111111111111111111111111111111" ++ ".mp3")) := by
  have h := tts_success_urls_hex_and_unique
    ⟨none, none, "00000000000000000000000000000000", false, false⟩
    ⟨none, none, "11111111111111111111111111111111", false, false⟩
    ⟨"Hello", "hi", none⟩ ⟨"Hello", "hi", none⟩
    ⟨"/outputs/" ++ ("tts_" ++ "00000000000000000000000000000000" ++ ".mp3")⟩
    ⟨"/outputs/" ++ ("tts_" ++ "11111111111111111111111111111111" ++ ".mp3")⟩
    (by decide) (by decide) (by decide) (by decide) (by decide)
  exact h

end DubbingApi
